import Mathlib

/-!
# Verification of the voicebox core (reference segment selector, policy, task tracker)

Shallow embedding of `src/backend/config.py`, `src/backend/utils/tasks.py` and
`src/backend/utils/audio.py`.  Python floats are modelled as exact rationals
(for the config and task layers) or reals (for the audio layer, where `sqrt`
appears); Python `int(x)` is truncation toward zero; Python exceptions are
modelled by explicit error results.
-/

namespace Voicebox

/-- Python `int(x)` on a rational: truncation toward zero. -/
def qtrunc (q : ℚ) : ℤ := if 0 ≤ q then ⌊q⌋ else ⌈q⌉

/-! ## Config: `src/backend/config.py` -/

/-- Mirror of the frozen dataclass `VoiceCloneReferencePolicy` (config.py lines 24-36).
Float fields become exact rationals. -/
structure VoiceCloneReferencePolicy where
  hard_min_seconds : ℚ := 2
  recommended_target_seconds : ℚ := 15
  hard_max_seconds : ℚ := 60
  capture_auto_stop_seconds : ℤ := 29
  min_rms : ℚ := 1/100
  max_silence_fraction : ℚ := 45/100   -- source field: max_silence_ratio
  max_clipping_fraction : ℚ := 2/100   -- source field: max_clipping_ratio
  selection_step_seconds : ℚ := 1/2
  policy_version : String := "v1"
  deriving DecidableEq, Repr

/-- The hardcoded default instance `_DEFAULT_VOICE_CLONE_POLICY` (config.py line 42). -/
def DEFAULT_VOICE_CLONE_POLICY : VoiceCloneReferencePolicy := {}

/-- Mirror of `_validate_voice_clone_policy` (config.py lines 67-94): the collected
issue strings, in source order.  The policy is valid iff this list is empty. -/
def voice_clone_policy_issues (p : VoiceCloneReferencePolicy) : List String :=
  (if p.hard_min_seconds ≤ 0 then ["hard_min_seconds must be > 0"] else []) ++
  (if p.recommended_target_seconds ≤ 0 then ["recommended_target_seconds must be > 0"] else []) ++
  (if p.hard_max_seconds ≤ 0 then ["hard_max_seconds must be > 0"] else []) ++
  (if p.recommended_target_seconds < p.hard_min_seconds then
    ["hard_min_seconds must be <= recommended_target_seconds"] else []) ++
  (if p.hard_max_seconds < p.recommended_target_seconds then
    ["recommended_target_seconds must be <= hard_max_seconds"] else []) ++
  (if p.capture_auto_stop_seconds ≤ 0 then ["capture_auto_stop_seconds must be > 0"] else []) ++
  (if qtrunc p.hard_max_seconds < p.capture_auto_stop_seconds then
    ["capture_auto_stop_seconds must be <= hard_max_seconds"] else []) ++
  (if p.min_rms ≤ 0 then ["min_rms must be > 0"] else []) ++
  (if ¬ (0 ≤ p.max_silence_fraction ∧ p.max_silence_fraction ≤ 1) then
    ["max_silence_ratio must be between 0 and 1"] else []) ++
  (if ¬ (0 ≤ p.max_clipping_fraction ∧ p.max_clipping_fraction ≤ 1) then
    ["max_clipping_ratio must be between 0 and 1"] else []) ++
  (if p.selection_step_seconds ≤ 0 then ["selection_step_seconds must be > 0"] else [])

/-- Mirror of `_validate_voice_clone_policy`'s return value `(is_valid, reason)`. -/
def validate_voice_clone_policy (p : VoiceCloneReferencePolicy) : Bool × String :=
  let issues := voice_clone_policy_issues p
  if issues = [] then (true, "") else (false, String.intercalate "; " issues)

/-- A configuration source: for each policy field, either a successfully parsed
override or nothing.  `none` models a variable that is absent, empty, or whose
text failed to parse (in all three cases `_env_float` / `_env_int` in config.py
lines 45-64 yield the per-field default). -/
structure PolicyEnv where
  hard_min_seconds : Option ℚ := none
  recommended_target_seconds : Option ℚ := none
  hard_max_seconds : Option ℚ := none
  capture_auto_stop_seconds : Option ℤ := none
  min_rms : Option ℚ := none
  max_silence_fraction : Option ℚ := none
  max_clipping_fraction : Option ℚ := none
  selection_step_seconds : Option ℚ := none
  policy_version : Option String := none
  deriving DecidableEq

/-- Field-by-field resolution of the candidate policy (config.py lines 104-138):
each field is the source's value when present, the hardcoded default otherwise. -/
def resolve_policy_env (e : PolicyEnv) : VoiceCloneReferencePolicy :=
  { hard_min_seconds := e.hard_min_seconds.getD DEFAULT_VOICE_CLONE_POLICY.hard_min_seconds
    recommended_target_seconds :=
      e.recommended_target_seconds.getD DEFAULT_VOICE_CLONE_POLICY.recommended_target_seconds
    hard_max_seconds := e.hard_max_seconds.getD DEFAULT_VOICE_CLONE_POLICY.hard_max_seconds
    capture_auto_stop_seconds :=
      e.capture_auto_stop_seconds.getD DEFAULT_VOICE_CLONE_POLICY.capture_auto_stop_seconds
    min_rms := e.min_rms.getD DEFAULT_VOICE_CLONE_POLICY.min_rms
    max_silence_fraction :=
      e.max_silence_fraction.getD DEFAULT_VOICE_CLONE_POLICY.max_silence_fraction
    max_clipping_fraction :=
      e.max_clipping_fraction.getD DEFAULT_VOICE_CLONE_POLICY.max_clipping_fraction
    selection_step_seconds :=
      e.selection_step_seconds.getD DEFAULT_VOICE_CLONE_POLICY.selection_step_seconds
    policy_version := e.policy_version.getD DEFAULT_VOICE_CLONE_POLICY.policy_version }

/-- Mirror of `_load_voice_clone_reference_policy` (config.py lines 97-145):
resolve every field, validate once, and on any structural violation return the
hardcoded default instance wholesale. -/
def load_voice_clone_reference_policy (e : PolicyEnv) : VoiceCloneReferencePolicy :=
  let policy := resolve_policy_env e
  if (validate_voice_clone_policy policy).1 then policy else DEFAULT_VOICE_CLONE_POLICY

/-- The concrete source of claim C4: `hard_min_seconds = 20 > 15 = recommended_target_seconds`,
every other field left at its (valid) default. -/
def badMinEnv : PolicyEnv := { hard_min_seconds := some 20 }

end Voicebox

namespace Voicebox

/-- **C4.** For every configuration source, if the fully-resolved policy fails the
structural validator then loading returns the hardcoded default instance wholesale
(never a partial merge); in particular the source overriding only
`hard_min_seconds` to 20 (> recommended_target_seconds = 15, all else valid)
resolves to a non-default policy yet loads as exactly the default policy. -/
theorem load_policy_invalid_returns_default :
    (∀ e : PolicyEnv, (validate_voice_clone_policy (resolve_policy_env e)).1 = false →
      load_voice_clone_reference_policy e = DEFAULT_VOICE_CLONE_POLICY) ∧
    (validate_voice_clone_policy (resolve_policy_env badMinEnv)).1 = false ∧
    resolve_policy_env badMinEnv ≠ DEFAULT_VOICE_CLONE_POLICY ∧
    load_voice_clone_reference_policy badMinEnv = DEFAULT_VOICE_CLONE_POLICY := by
  have hval : (validate_voice_clone_policy (resolve_policy_env badMinEnv)).1 = false := by
    norm_num [validate_voice_clone_policy, voice_clone_policy_issues, resolve_policy_env,
      badMinEnv, DEFAULT_VOICE_CLONE_POLICY, qtrunc]
  refine ⟨fun e h => ?_, hval, ?_, ?_⟩
  · unfold load_voice_clone_reference_policy
    simp [h]
  · simp only [resolve_policy_env, badMinEnv, DEFAULT_VOICE_CLONE_POLICY, ne_eq,
      VoiceCloneReferencePolicy.mk.injEq, Option.getD_some, Option.getD_none]
    norm_num
  · unfold load_voice_clone_reference_policy
    simp [hval]

/-- Witness for C4: the universally quantified clause applied at the concrete bad
source, with its hypothesis discharged by evaluation. -/
theorem load_policy_invalid_returns_default_witness :
    load_voice_clone_reference_policy badMinEnv = DEFAULT_VOICE_CLONE_POLICY :=
  load_policy_invalid_returns_default.1 badMinEnv (by
    norm_num [validate_voice_clone_policy, voice_clone_policy_issues, resolve_policy_env,
      badMinEnv, DEFAULT_VOICE_CLONE_POLICY, qtrunc])

/-! ## Task tracker: `src/backend/utils/tasks.py`

Timestamps are modelled as rational numbers of seconds; `datetime.now(timezone.utc)`
becomes an explicit `now` argument threaded into each operation.  The Python dict
`_active_recording_tasks` (insertion-ordered, string keys) is modelled as an
association list updated in place. -/

/-- Mirror of the tuple `PROCESSING_STAGES` (tasks.py line 13). -/
def PROCESSING_STAGES : List String := ["upload", "validate", "transcribe", "embed", "save"]

/-- Mirror of the dataclass `RecordingProcessingTask` (tasks.py lines 40-51). -/
structure RecordingProcessingTask where
  task_id : String
  stage : String := "upload"
  status : String := "running"
  progress : Option ℚ := some 0
  message : Option String := none
  error : Option String := none
  started_at : ℚ
  updated_at : ℚ
  deriving DecidableEq, Repr

/-- The task map `_active_recording_tasks`: an insertion-ordered dict. -/
abbrev TaskMap := List (String × RecordingProcessingTask)

/-- Python dict `d[k] = v`: replace the value in place if the key exists,
append at the end otherwise. -/
def dictSet (m : TaskMap) (k : String) (v : RecordingProcessingTask) : TaskMap :=
  match m with
  | [] => [(k, v)]
  | (k', v') :: rest => if k' = k then (k, v) :: rest else (k', v') :: dictSet rest k v

/-- Python dict `d.get(k)`. -/
def dictGet (m : TaskMap) (k : String) : Option RecordingProcessingTask :=
  match m with
  | [] => none
  | (k', v') :: rest => if k' = k then some v' else dictGet rest k

/-- `RecordingProcessingTask(task_id=task_id)`: all dataclass defaults, timestamps
from `_now_utc()`. -/
def freshTask (task_id : String) (now : ℚ) : RecordingProcessingTask :=
  { task_id := task_id, started_at := now, updated_at := now }

/-- Mirror of `TaskManager.update_recording_processing` (tasks.py lines 111-135).
The result is the new task map paired with the raised error message, if any; a
`some` error means the `ValueError` was raised before the map was touched, so the
first component is the input map unchanged. -/
def update_recording_processing (m : TaskMap) (now : ℚ) (task_id stage : String)
    (progress : Option ℚ) (message : Option String) : TaskMap × Option String :=
  if stage ∉ PROCESSING_STAGES then
    (m, some ("Invalid processing stage: " ++ stage))
  else
    let t0 := (dictGet m task_id).getD (freshTask task_id now)
    let t1 : RecordingProcessingTask :=
      { t0 with
        stage := stage
        status := "running"
        updated_at := now
        error := none
        progress := match progress with
          | some p => some (max 0 (min 100 p))
          | none => t0.progress
        message := match message with
          | some s => some s
          | none => t0.message }
    (dictSet m task_id t1, none)

/-- Mirror of `TaskManager.get_active_recording_tasks` (tasks.py lines 189-200):
purge every entry whose status is `"error"` and whose `updated_at` is strictly
older than `now - 30`, then return the new map together with the list of the
remaining values.  Collecting stale ids and deleting them preserves the relative
order of the survivors, which is exactly a filter. -/
def get_active_recording_tasks (m : TaskMap) (now : ℚ) :
    TaskMap × List RecordingProcessingTask :=
  let kept := m.filter (fun e => !(e.2.status = "error" && decide (e.2.updated_at < now - 30)))
  (kept, kept.map (·.2))

end Voicebox

namespace Voicebox

/-- **C5.** For every task map, time, task id and stage string outside the fixed
five-element stage set, `update_recording_processing` raises the invalid-stage
`ValueError` and leaves the task map exactly as it was: no pre-existing record is
modified and no record is created (the error is raised before the map is touched). -/
theorem update_invalid_stage_rejected (m : TaskMap) (now : ℚ) (task_id stage : String)
    (progress : Option ℚ) (message : Option String)
    (h : stage ∉ PROCESSING_STAGES) :
    update_recording_processing m now task_id stage progress message =
      (m, some ("Invalid processing stage: " ++ stage)) := by
  unfold update_recording_processing
  simp [h]

/-- Witness for C5 at a concrete pre-existing record and the stage `"bogus"`. -/
theorem update_invalid_stage_rejected_witness :
    "bogus" ∉ PROCESSING_STAGES ∧
    update_recording_processing [("t1", freshTask "t1" 0)] 5 "t1" "bogus" (some 50) none =
      ([("t1", freshTask "t1" 0)], some "Invalid processing stage: bogus") :=
  ⟨by decide, update_invalid_stage_rejected _ 5 "t1" "bogus" (some 50) none (by decide)⟩

/-- An error-status task last updated at time 0; listing at time 30 makes it
exactly 30 seconds stale. -/
def staleErrorTask : RecordingProcessingTask :=
  { task_id := "t1", stage := "transcribe", status := "error", error := some "boom",
    message := some "boom", started_at := 0, updated_at := 0 }

/-- **C6 counterexample.** The claim says an error record that is ≥ 30 seconds
stale at the moment of listing is purged and absent from the returned snapshot.
The code purges only records strictly older than the 30-second cutoff
(`task.updated_at < expiry_cutoff`): a record exactly 30 seconds stale is kept
and returned in the snapshot. -/
theorem list_active_keeps_exactly_30s_stale_error :
    get_active_recording_tasks [("t1", staleErrorTask)] 30 =
      ([("t1", staleErrorTask)], [staleErrorTask]) := by
  norm_num [get_active_recording_tasks, staleErrorTask, List.filter]

/-- **C6 (amended).** A task whose status is `"error"` and whose `updated_at` is
*strictly* more than 30 seconds stale at the moment of listing is purged by that
call: it is absent from the returned snapshot and from the resulting map (hence
from all later listings, absent re-creation).  An error record that is 30 seconds
stale or less is retained and appears in the snapshot, and a record with status
`"running"` is never purged regardless of age. -/
theorem list_active_purges_stale_errors (m : TaskMap) (now : ℚ) (task_id : String)
    (t : RecordingProcessingTask) (hmem : (task_id, t) ∈ m) :
    (t.status = "error" → t.updated_at < now - 30 →
        t ∉ (get_active_recording_tasks m now).2 ∧
        (task_id, t) ∉ (get_active_recording_tasks m now).1) ∧
    (t.status = "error" → now - 30 ≤ t.updated_at →
        t ∈ (get_active_recording_tasks m now).2) ∧
    (t.status = "running" → t ∈ (get_active_recording_tasks m now).2) := by
  unfold get_active_recording_tasks
  refine ⟨fun hs hu => ⟨?_, ?_⟩, fun hs hu => ?_, fun hs => ?_⟩
  · simp only [List.mem_map]
    rintro ⟨⟨id', t'⟩, hmem', rfl⟩
    have := List.of_mem_filter hmem'
    simp_all
  · intro hmem'
    have := List.of_mem_filter hmem'
    simp_all
  · refine List.mem_map.2 ⟨(task_id, t), List.mem_filter.2 ⟨hmem, ?_⟩, rfl⟩
    simp [hs, not_lt.2 hu]
  · refine List.mem_map.2 ⟨(task_id, t), List.mem_filter.2 ⟨hmem, ?_⟩, rfl⟩
    simp [hs]

/-- Witness for C6 (amended): a 31-seconds-stale error record is purged, the
exactly-30-seconds-stale one is kept, and a running record of the same age is kept. -/
theorem list_active_purges_stale_errors_witness :
    (staleErrorTask ∉
        (get_active_recording_tasks [("t1", staleErrorTask)] 31).2 ∧
      ("t1", staleErrorTask) ∉
        (get_active_recording_tasks [("t1", staleErrorTask)] 31).1) ∧
    staleErrorTask ∈ (get_active_recording_tasks [("t1", staleErrorTask)] 30).2 ∧
    freshTask "t0" 0 ∈ (get_active_recording_tasks [("t0", freshTask "t0" 0)] 1000).2 :=
  ⟨(list_active_purges_stale_errors _ 31 "t1" staleErrorTask (by decide)).1
      (by decide) (by norm_num [staleErrorTask]),
    (list_active_purges_stale_errors _ 30 "t1" staleErrorTask (by decide)).2.1
      (by decide) (by norm_num [staleErrorTask]),
    (list_active_purges_stale_errors _ 1000 "t0" (freshTask "t0" 0) (by decide)).2.2
      (by decide)⟩

/-! ### Reference-level model of the tracker

`get_active_recording_tasks` returns `list(self._active_recording_tasks.values())`:
a fresh list whose elements are the very `RecordingProcessingTask` objects stored
in the dict, not copies.  To state claims about aliasing, tasks live in a heap
(`heap`, indexed by allocation number) and the dict maps ids to heap references;
the listing returns the list of references. -/

structure TrackerState where
  heap : List RecordingProcessingTask
  entries : List (String × ℕ)
  deriving DecidableEq

/-- Dereference a task object. -/
def viewTask (σ : TrackerState) (r : ℕ) : RecordingProcessingTask :=
  σ.heap.getD r (freshTask "" 0)

/-- The task map as the caller observes it through the dict: id ↦ current object state. -/
def view_active_map (σ : TrackerState) : List (String × RecordingProcessingTask) :=
  σ.entries.map (fun e => (e.1, viewTask σ e.2))

/-- Mutating a task object in place (e.g. assigning to a field of a returned
record): the heap cell changes, the dict still holds the same reference. -/
def setTask (σ : TrackerState) (r : ℕ) (t : RecordingProcessingTask) : TrackerState :=
  { σ with heap := σ.heap.set r t }

/-- `get_active_recording_tasks` at the reference level (tasks.py lines 189-200):
purge stale error entries, then return `list(values())` — the list of the stored
references. -/
def get_active_recording_task_refs (σ : TrackerState) (now : ℚ) :
    TrackerState × List ℕ :=
  let kept := σ.entries.filter (fun e =>
    !((viewTask σ e.2).status = "error" && decide ((viewTask σ e.2).updated_at < now - 30)))
  ({ σ with entries := kept }, kept.map (·.2))

/-- A one-task tracker state and a mutated task value, for the C7 counterexample. -/
def oneTaskState : TrackerState :=
  { heap := [freshTask "t0" 0], entries := [("t0", 0)] }

/-- **C7 counterexample.** The claim says the list returned by the listing
operation consists of independent copies: mutating a returned record leaves the
tracker's internal task map unchanged.  In the code the returned list holds the
tracker's own task objects: reference 0 is returned by the listing on
`oneTaskState`, yet writing through it changes what the tracker's map shows. -/
theorem list_active_returns_live_references :
    0 ∈ (get_active_recording_task_refs oneTaskState 10).2 ∧
    view_active_map
        (setTask (get_active_recording_task_refs oneTaskState 10).1 0
          { freshTask "t0" 0 with progress := some 55 }) ≠
      view_active_map (get_active_recording_task_refs oneTaskState 10).1 := by
  constructor
  · norm_num [get_active_recording_task_refs, oneTaskState, viewTask, freshTask, List.filter]
  · norm_num [get_active_recording_task_refs, oneTaskState, viewTask, setTask,
      view_active_map, freshTask, List.filter]

/-- **C7 (amended).** The listing returns a fresh list (so adding or removing
list elements cannot affect the tracker), but its elements are live references
into the tracker's own task map, not copies: every reference held by the purged
map is returned, and writing any value through such a reference is visible in
the tracker's map afterwards. -/
theorem list_active_refs_alias_tracker (σ : TrackerState) (now : ℚ)
    (p : String × ℕ) (hp : p ∈ (get_active_recording_task_refs σ now).1.entries) :
    p.2 ∈ (get_active_recording_task_refs σ now).2 ∧
    ∀ t' : RecordingProcessingTask,
      p.2 < (get_active_recording_task_refs σ now).1.heap.length →
      (p.1, t') ∈ view_active_map (setTask (get_active_recording_task_refs σ now).1 p.2 t') := by
  constructor
  · simp only [get_active_recording_task_refs] at hp ⊢
    exact List.mem_map.2 ⟨p, hp, rfl⟩
  · intro t' hlen
    refine List.mem_map.2 ⟨p, ?_, ?_⟩
    · simpa [setTask, view_active_map] using hp
    · simp only [viewTask, setTask]
      rw [List.getD_eq_getElem?_getD, List.getElem?_set_self, Option.getD_some]
      simp only [get_active_recording_task_refs] at hlen
      simpa [setTask] using hlen

/-- Witness for C7 (amended) at the concrete one-task state. -/
theorem list_active_refs_alias_tracker_witness :
    0 ∈ (get_active_recording_task_refs oneTaskState 10).2 ∧
    ("t0", { freshTask "t0" 0 with progress := some 55 }) ∈
      view_active_map
        (setTask (get_active_recording_task_refs oneTaskState 10).1 0
          { freshTask "t0" 0 with progress := some 55 }) := by
  have h := list_active_refs_alias_tracker oneTaskState 10 ("t0", 0)
    (by norm_num [get_active_recording_task_refs, oneTaskState, viewTask, freshTask, List.filter])
  exact ⟨h.1, h.2 _ (by
    norm_num [get_active_recording_task_refs, oneTaskState, List.filter, viewTask, freshTask])⟩

/-! ## Audio: `src/backend/utils/audio.py`

Sample buffers are lists of reals (exact model of float samples), `sample_rate`
is an integer, and numpy reductions become list folds.  Python `int(x)` is
truncation toward zero (`pyint`); exceptions are explicit `Except.error` results
carrying the `ValueError` message.  Comparisons on reals inside the algorithm use
classical decidability. -/

section
open Classical

/-- Python `int(x)` on a real: truncation toward zero. -/
noncomputable def pyint (x : ℝ) : ℤ := if 0 ≤ x then ⌊x⌋ else ⌈x⌉

/-- Result shape of `compute_quality_metrics` (audio.py lines 122-151).  The
source dict keys `silence_ratio` / `clipping_ratio` are the fields
`silence_fraction` / `clipping_fraction` here. -/
structure QualityMetrics where
  duration_seconds : ℝ
  rms : ℝ
  silence_fraction : ℝ
  clipping_fraction : ℝ
  peak_abs : ℝ

/-- Mirror of `compute_quality_metrics` (audio.py lines 122-151): on an empty
buffer the degenerate metrics, otherwise `rms = sqrt(mean(x²))`,
`silence_ratio = mean(|x| ≤ silence_threshold)`,
`clipping_ratio = mean(|x| ≥ clipping_threshold)`, `peak_abs = max |x|`, and
`duration_seconds` equal to the raw sample count `audio.shape[0]`. -/
noncomputable def compute_quality_metrics (audio : List ℝ)
    (silence_threshold : ℝ := 0.01) (clipping_threshold : ℝ := 0.99) : QualityMetrics :=
  if audio.length = 0 then
    { duration_seconds := 0, rms := 0, silence_fraction := 1, clipping_fraction := 1,
      peak_abs := 0 }
  else
    let n : ℝ := audio.length
    { duration_seconds := n
      rms := Real.sqrt (((audio.map (fun x => x ^ 2)).sum) / n)
      silence_fraction := ((audio.countP (fun x => decide (|x| ≤ silence_threshold))) : ℝ) / n
      clipping_fraction := ((audio.countP (fun x => decide (clipping_threshold ≤ |x|))) : ℝ) / n
      peak_abs := (audio.map (fun x => |x|)).foldr max 0 }

/-- Metadata dict returned by `select_best_reference_segment`. -/
structure SelectionMeta where
  selected_start_ms : ℤ
  selected_end_ms : ℤ
  source_duration_ms : ℤ
  metrics : QualityMetrics
  fallback_reason : Option String
  policy_version : String

/-- One scanned window (audio.py lines 227-235).  The source key `end` is the
field `stop` here (`end` is a Lean keyword). -/
structure Candidate where
  start : ℕ
  stop : ℕ
  eligible : Bool
  score : ℝ
  metrics : QualityMetrics

/-- Window length (audio.py lines 177-178):
`max(1, int(recommended_target_seconds * sample_rate))` clamped to the buffer length. -/
noncomputable def window_samples (audio : List ℝ) (recommended_target_seconds : ℝ)
    (sample_rate : ℤ) : ℕ :=
  min (max 1 (pyint (recommended_target_seconds * sample_rate))).toNat audio.length

/-- Scan stride (audio.py line 193): `max(1, int(selection_step_seconds * sample_rate))`. -/
noncomputable def scan_step (selection_step_seconds : ℝ) (sample_rate : ℤ) : ℕ :=
  (max 1 (pyint (selection_step_seconds * sample_rate))).toNat

/-- Candidate start offsets (audio.py lines 194-199):
`range(0, last_start + 1, step)`, with `last_start` appended when the stride
does not land on it. -/
def scan_starts (len window step : ℕ) : List ℕ :=
  let last := len - window
  let base := (List.range (last / step + 1)).map (· * step)
  if base.getLast? = some last then base else base ++ [last]

/-- Python slice `audio[start:stop]` for `0 ≤ start ≤ stop`. -/
def segment (audio : List ℝ) (start stop : ℕ) : List ℝ :=
  (audio.drop start).take (stop - start)

/-- `rms_norm_denom = max(min_rms * 2.0, 1e-8)` (audio.py line 202). -/
noncomputable def rms_norm_denom (min_rms : ℝ) : ℝ :=
  max (min_rms * 2) (1 / 100000000)

/-- Eligibility of a window (audio.py lines 210-214). -/
noncomputable def is_eligible (m : QualityMetrics)
    (min_rms max_silence max_clipping : ℝ) : Bool :=
  decide (min_rms ≤ m.rms) && decide (m.silence_fraction ≤ max_silence) &&
    decide (m.clipping_fraction ≤ max_clipping)

/-- Deterministic weighted score with ineligibility penalty (audio.py lines 216-225). -/
noncomputable def candidate_score (m : QualityMetrics) (min_rms : ℝ)
    (eligible : Bool) : ℝ :=
  let normalized_rms := min (m.rms / rms_norm_denom min_rms) 1.5
  let score := (1 - m.silence_fraction) * 0.45 + normalized_rms * 0.40 +
    (1 - m.clipping_fraction) * 0.15
  if eligible then score else score - 1

/-- Metrics of the window starting at `start` (audio.py lines 206-208): metrics
of the slice, with `duration_seconds` overwritten by `len(segment)/sample_rate`. -/
noncomputable def window_metrics (audio : List ℝ) (sample_rate : ℤ) (window start : ℕ) :
    QualityMetrics :=
  { compute_quality_metrics (segment audio start (start + window)) with
    duration_seconds :=
      ((segment audio start (start + window)).length : ℝ) / (sample_rate : ℝ) }

/-- One candidate of the scan loop (audio.py lines 204-235): slice the window,
compute metrics, overwrite `duration_seconds`, decide eligibility, and score. -/
noncomputable def candidate_of (audio : List ℝ) (sample_rate : ℤ) (window : ℕ)
    (min_rms max_silence max_clipping : ℝ) (start : ℕ) : Candidate :=
  { start := start
    stop := start + window
    eligible := is_eligible (window_metrics audio sample_rate window start)
      min_rms max_silence max_clipping
    score := candidate_score (window_metrics audio sample_rate window start) min_rms
      (is_eligible (window_metrics audio sample_rate window start)
        min_rms max_silence max_clipping)
    metrics := window_metrics audio sample_rate window start }

/-- Strict comparison of Python 3-tuples of floats (lexicographic). -/
def keyGt3 (a b : ℝ × ℝ × ℝ) : Prop :=
  b.1 < a.1 ∨ (a.1 = b.1 ∧ (b.2.1 < a.2.1 ∨ (a.2.1 = b.2.1 ∧ b.2.2 < a.2.2)))

/-- Python `max(a :: l, key=k)`: left fold keeping the earliest maximum
(a later element replaces the current best only when its key is strictly
greater). -/
noncomputable def max_by {α : Type} (k : α → ℝ × ℝ × ℝ) (a : α) (l : List α) : α :=
  l.foldl (fun best c => if keyGt3 (k c) (k best) then c else best) a

/-- Key for the eligible branch (audio.py line 243):
`(score, -silence_ratio, rms)`. -/
noncomputable def eligible_key (c : Candidate) : ℝ × ℝ × ℝ :=
  (c.score, -c.metrics.silence_fraction, c.metrics.rms)

/-- Key for the fallback branch (audio.py line 250):
`(-silence_ratio, rms, -clipping_ratio)` — the penalized score is ignored. -/
noncomputable def fallback_key (c : Candidate) : ℝ × ℝ × ℝ :=
  (-c.metrics.silence_fraction, c.metrics.rms, -c.metrics.clipping_fraction)

/-- All candidates of one scan (audio.py lines 201-235). -/
noncomputable def scan_candidates (audio : List ℝ) (sample_rate : ℤ)
    (recommended_target_seconds min_rms max_silence max_clipping
      selection_step_seconds : ℝ) : List Candidate :=
  let window := window_samples audio recommended_target_seconds sample_rate
  (scan_starts audio.length window (scan_step selection_step_seconds sample_rate)).map
    (candidate_of audio sample_rate window min_rms max_silence max_clipping)

/-- Choice of the best candidate (audio.py lines 237-252): the maximum of the
eligible candidates by `eligible_key` when any exists, else the maximum of all
candidates by `fallback_key` together with the fallback tag.  `none` is the
`ValueError` Python's `max` would raise on an empty candidate list. -/
noncomputable def pick_best (cands : List Candidate) : Option (Candidate × Option String) :=
  match cands.filter (fun c => c.eligible), cands with
  | e :: es, _ => some (max_by eligible_key e es, none)
  | [], c :: cs => some (max_by fallback_key c cs, some "no_segment_met_quality_thresholds")
  | [], [] => none

/-- Mirror of `select_best_reference_segment` (audio.py lines 154-262). -/
noncomputable def select_best_reference_segment (audio : List ℝ) (sample_rate : ℤ)
    (recommended_target_seconds min_rms max_silence max_clipping
      selection_step_seconds : ℝ) (policy_version : String := "v1") :
    Except String (List ℝ × SelectionMeta) :=
  if audio.length = 0 then .error "Cannot select reference segment from empty audio"
  else if sample_rate ≤ 0 then .error "sample_rate must be > 0"
  else
    let total_duration_seconds : ℝ := (audio.length : ℝ) / (sample_rate : ℝ)
    let window := window_samples audio recommended_target_seconds sample_rate
    if audio.length ≤ window then
      let m0 := compute_quality_metrics audio
      .ok (audio,
        { selected_start_ms := 0
          selected_end_ms := pyint (total_duration_seconds * 1000)
          source_duration_ms := pyint (total_duration_seconds * 1000)
          metrics := { m0 with duration_seconds := (audio.length : ℝ) / (sample_rate : ℝ) }
          fallback_reason := none
          policy_version := policy_version })
    else
      match pick_best (scan_candidates audio sample_rate recommended_target_seconds
          min_rms max_silence max_clipping selection_step_seconds) with
      | none => .error "max() arg is an empty sequence"
      | some (best, fb) =>
        .ok (segment audio best.start best.stop,
          { selected_start_ms := pyint ((best.start : ℝ) / (sample_rate : ℝ) * 1000)
            selected_end_ms := pyint ((best.stop : ℝ) / (sample_rate : ℝ) * 1000)
            source_duration_ms := pyint (total_duration_seconds * 1000)
            metrics := best.metrics
            fallback_reason := fb
            policy_version := policy_version })

end

end Voicebox

namespace Voicebox

/-- **C2.** `compute_quality_metrics` on the empty buffer returns exactly
`rms=0, peak_abs=0, silence_ratio=1, clipping_ratio=1, duration_seconds=0` for
every choice of the two thresholds; being a total function, it never raises. -/
theorem compute_quality_metrics_empty (silence_threshold clipping_threshold : ℝ) :
    compute_quality_metrics [] silence_threshold clipping_threshold =
      { duration_seconds := 0, rms := 0, silence_fraction := 1, clipping_fraction := 1,
        peak_abs := 0 } := by
  simp [compute_quality_metrics]

/-- **C1.** Fast path: whenever the buffer is non-empty, the sample rate is
positive and the buffer length is at most the computed window length, selection
returns the entire input buffer unchanged with `fallback_reason = none` and
`selected_end_ms` the truncation of `length / sample_rate * 1000`. -/
theorem select_fast_path_returns_whole_buffer (audio : List ℝ) (sample_rate : ℤ)
    (rec mr ms mc ss : ℝ) (pv : String)
    (h1 : audio ≠ []) (h2 : 0 < sample_rate)
    (h3 : audio.length ≤ window_samples audio rec sample_rate) :
    ∃ meta, select_best_reference_segment audio sample_rate rec mr ms mc ss pv =
        .ok (audio, meta) ∧
      meta.fallback_reason = none ∧
      meta.selected_end_ms = pyint ((audio.length : ℝ) / (sample_rate : ℝ) * 1000) := by
  have hlen : ¬ audio.length = 0 := by simpa [List.length_eq_zero] using h1
  unfold select_best_reference_segment
  rw [if_neg hlen, if_neg (not_le.2 h2), if_pos h3]
  exact ⟨_, rfl, rfl, rfl⟩

/-- Witness for C1 at the one-sample buffer `[0.5]`, 1 Hz, 1-second target. -/
theorem select_fast_path_returns_whole_buffer_witness :
    ∃ meta, select_best_reference_segment [(1:ℝ)/2] 1 1 (1/100) (45/100) (1/50) (1/2) "v1" =
        .ok ([(1:ℝ)/2], meta) ∧
      meta.fallback_reason = none ∧ meta.selected_end_ms = 1000 := by
  have hw : window_samples [(1:ℝ)/2] 1 1 = 1 := by
    norm_num [window_samples, pyint]
  obtain ⟨meta, hok, hfb, hend⟩ :=
    select_fast_path_returns_whole_buffer [(1:ℝ)/2] 1 1 (1/100) (45/100) (1/50) (1/2) "v1"
      (by simp) (by norm_num) (by rw [hw]; simp)
  refine ⟨meta, hok, hfb, ?_⟩
  rw [hend]
  norm_num [pyint]

/-! ### The fold computing Python `max(list, key=...)` -/

lemma keyGt3_trans {a b c : ℝ × ℝ × ℝ} (h1 : keyGt3 a b) (h2 : keyGt3 b c) : keyGt3 a c := by
  unfold keyGt3 at *
  rcases h1 with h1 | ⟨e1, h1⟩ <;> rcases h2 with h2 | ⟨e2, h2⟩
  · exact Or.inl (h2.trans h1)
  · exact Or.inl (e2 ▸ h1)
  · exact Or.inl (e1 ▸ h2)
  · rcases h1 with h1 | ⟨f1, h1⟩ <;> rcases h2 with h2 | ⟨f2, h2⟩
    · exact Or.inr ⟨e1.trans e2, Or.inl (h2.trans h1)⟩
    · exact Or.inr ⟨e1.trans e2, Or.inl (f2 ▸ h1)⟩
    · exact Or.inr ⟨e1.trans e2, Or.inl (f1 ▸ h2)⟩
    · exact Or.inr ⟨e1.trans e2, Or.inr ⟨f1.trans f2, h2.trans h1⟩⟩

lemma keyGt3_irrefl (a : ℝ × ℝ × ℝ) : ¬ keyGt3 a a := by
  unfold keyGt3
  simp

/-- Trichotomy for the lexicographic comparison of real triples. -/
lemma keyGt3_cases (a b : ℝ × ℝ × ℝ) : keyGt3 a b ∨ keyGt3 b a ∨ a = b := by
  obtain ⟨a1, a2, a3⟩ := a
  obtain ⟨b1, b2, b3⟩ := b
  simp only [keyGt3, Prod.mk.injEq]
  rcases lt_trichotomy a1 b1 with h1 | h1 | h1
  · exact Or.inr (Or.inl (Or.inl h1))
  · rcases lt_trichotomy a2 b2 with h2 | h2 | h2
    · exact Or.inr (Or.inl (Or.inr ⟨h1.symm, Or.inl h2⟩))
    · rcases lt_trichotomy a3 b3 with h3 | h3 | h3
      · exact Or.inr (Or.inl (Or.inr ⟨h1.symm, Or.inr ⟨h2.symm, h3⟩⟩))
      · exact Or.inr (Or.inr ⟨h1, h2, h3⟩)
      · exact Or.inl (Or.inr ⟨h1, Or.inr ⟨h2, h3⟩⟩)
    · exact Or.inl (Or.inr ⟨h1, Or.inl h2⟩)
  · exact Or.inl (Or.inl h1)

/-- `x ≥ y` (i.e. not `y > x`) and `y > z` give `x > z`. -/
lemma keyGt3_of_not_gt_of_gt {x y z : ℝ × ℝ × ℝ} (h1 : ¬ keyGt3 y x) (h2 : keyGt3 y z) :
    keyGt3 x z := by
  rcases keyGt3_cases x y with h | h | h
  · exact keyGt3_trans h h2
  · exact absurd h h1
  · rw [h]
    exact h2

section
open Classical

/-- The fold behind Python `max`: the result is an element of the list and no
element's key is strictly greater than the result's key (ties keep the earlier
element). -/
lemma max_by_spec {α : Type} (k : α → ℝ × ℝ × ℝ) :
    ∀ (l : List α) (a : α),
      max_by k a l ∈ a :: l ∧ ∀ c ∈ a :: l, ¬ keyGt3 (k c) (k (max_by k a l))
  | [], a => by
    refine ⟨List.mem_singleton.2 rfl, ?_⟩
    intro c hc
    rw [List.mem_singleton] at hc
    subst hc
    simpa [max_by] using keyGt3_irrefl (k c)
  | b :: t, a => by
    set a' := if keyGt3 (k b) (k a) then b else a with ha'
    have hstep : max_by k a (b :: t) = max_by k a' t := by
      simp [max_by, ha']
    obtain ⟨ihmem, ihbound⟩ := max_by_spec k t a'
    have hres := ihbound a' (List.mem_cons_self a' t)
    rw [hstep]
    have ha'mem : a' ∈ a :: b :: t := by
      rw [ha']
      split
      · exact List.mem_cons_of_mem _ (List.mem_cons_self _ _)
      · exact List.mem_cons_self _ _
    refine ⟨?_, ?_⟩
    · rcases List.mem_cons.1 ihmem with h | h
      · rw [h]
        exact ha'mem
      · exact List.mem_cons_of_mem _ (List.mem_cons_of_mem _ h)
    · have hnot_a : ¬ keyGt3 (k a) (k (max_by k a' t)) := by
        by_cases hba : keyGt3 (k b) (k a)
        · have hb : k a' = k b := congrArg k (ha'.trans (if_pos hba))
          rw [hb] at hres
          exact fun hgt => hres (keyGt3_trans hba hgt)
        · have hb : k a' = k a := congrArg k (ha'.trans (if_neg hba))
          rw [hb] at hres
          exact hres
      have hnot_b : ¬ keyGt3 (k b) (k (max_by k a' t)) := by
        by_cases hba : keyGt3 (k b) (k a)
        · have hb : k a' = k b := congrArg k (ha'.trans (if_pos hba))
          rw [hb] at hres
          exact hres
        · have hb : k a' = k a := congrArg k (ha'.trans (if_neg hba))
          rw [hb] at hres
          exact fun hgt => hres (keyGt3_of_not_gt_of_gt hba hgt)
      intro c hc
      rcases List.mem_cons.1 hc with h | h
      · rw [h]
        exact hnot_a
      rcases List.mem_cons.1 h with h' | h'
      · rw [h']
        exact hnot_b
      · exact ihbound c (List.mem_cons_of_mem _ h')

end

/-! ### Structure of the scan -/

lemma scan_starts_ne_nil (len w st : ℕ) : scan_starts len w st ≠ [] := by
  unfold scan_starts
  dsimp only
  split
  · simp [List.range_succ]
  · simp

lemma scan_starts_le (len w st : ℕ) {s : ℕ} (hs : s ∈ scan_starts len w st) :
    s ≤ len - w := by
  unfold scan_starts at hs
  dsimp only at hs
  have hbase : ∀ x ∈ (List.range ((len - w) / st + 1)).map (· * st), x ≤ len - w := by
    intro x hx
    obtain ⟨kk, hk, rfl⟩ := List.mem_map.1 hx
    have hk' : kk ≤ (len - w) / st := Nat.lt_succ_iff.1 (List.mem_range.1 hk)
    calc kk * st ≤ (len - w) / st * st := Nat.mul_le_mul_right st hk'
      _ ≤ len - w := Nat.div_mul_le_self _ _
  split at hs
  · exact hbase s hs
  · rcases List.mem_append.1 hs with h | h
    · exact hbase s h
    · simp at h
      omega

lemma segment_length (audio : List ℝ) (s w : ℕ) (h : s + w ≤ audio.length) :
    (segment audio s (s + w)).length = w := by
  simp [segment]
  omega

/-- Inversion principle for a successful selection: either the fast path fired
(buffer within the window) or the scan picked a best candidate. -/
lemma select_ok_cases (audio : List ℝ) (sample_rate : ℤ) (rec mr ms mc ss : ℝ)
    (pv : String) (seg : List ℝ) (meta : SelectionMeta)
    (h : select_best_reference_segment audio sample_rate rec mr ms mc ss pv =
      .ok (seg, meta)) :
    (audio.length ≤ window_samples audio rec sample_rate ∧ seg = audio ∧
      meta = { selected_start_ms := 0
               selected_end_ms := pyint ((audio.length : ℝ) / (sample_rate : ℝ) * 1000)
               source_duration_ms := pyint ((audio.length : ℝ) / (sample_rate : ℝ) * 1000)
               metrics := { compute_quality_metrics audio with
                 duration_seconds := (audio.length : ℝ) / (sample_rate : ℝ) }
               fallback_reason := none
               policy_version := pv }) ∨
    (¬ audio.length ≤ window_samples audio rec sample_rate ∧
      ∃ best fb, pick_best (scan_candidates audio sample_rate rec mr ms mc ss) =
          some (best, fb) ∧
        seg = segment audio best.start best.stop ∧
        meta = { selected_start_ms := pyint ((best.start : ℝ) / (sample_rate : ℝ) * 1000)
                 selected_end_ms := pyint ((best.stop : ℝ) / (sample_rate : ℝ) * 1000)
                 source_duration_ms := pyint ((audio.length : ℝ) / (sample_rate : ℝ) * 1000)
                 metrics := best.metrics
                 fallback_reason := fb
                 policy_version := pv }) := by
  unfold select_best_reference_segment at h
  by_cases h0 : audio.length = 0
  · rw [if_pos h0] at h
    exact absurd h (by simp)
  rw [if_neg h0] at h
  by_cases h1 : sample_rate ≤ 0
  · rw [if_pos h1] at h
    exact absurd h (by simp)
  rw [if_neg h1] at h
  by_cases h2 : audio.length ≤ window_samples audio rec sample_rate
  · rw [if_pos h2] at h
    left
    obtain ⟨hseg, hmeta⟩ := Prod.mk.injEq .. ▸ (Except.ok.injEq .. ▸ h)
    exact ⟨h2, hseg.symm, hmeta.symm⟩
  · rw [if_neg h2] at h
    right
    refine ⟨h2, ?_⟩
    rcases hpick : pick_best (scan_candidates audio sample_rate rec mr ms mc ss) with
      _ | ⟨best, fb⟩
    · rw [hpick] at h
      exact absurd h (by simp)
    · rw [hpick] at h
      obtain ⟨hseg, hmeta⟩ := Prod.mk.injEq .. ▸ (Except.ok.injEq .. ▸ h)
      exact ⟨best, fb, rfl, hseg.symm, hmeta.symm⟩

/-- The chosen candidate always comes from the scanned candidate list. -/
lemma pick_best_mem {cands : List Candidate} {best : Candidate} {fb : Option String}
    (h : pick_best cands = some (best, fb)) : best ∈ cands := by
  unfold pick_best at h
  rcases hf : cands.filter (fun c => c.eligible) with _ | ⟨e, es⟩
  · rcases hc : cands with _ | ⟨c, cs⟩
    · rw [hf, hc] at h
      simp at h
    · rw [hf, hc] at h
      simp only [Option.some.injEq, Prod.mk.injEq] at h
      rw [← h.1]
      exact (max_by_spec fallback_key cs c).1
  · rw [hf] at h
    simp only [Option.some.injEq, Prod.mk.injEq] at h
    have hmem : best ∈ e :: es := h.1 ▸ (max_by_spec eligible_key es e).1
    rw [← hf] at hmem
    exact List.mem_of_mem_filter hmem

lemma scan_candidates_shape {audio : List ℝ} {sample_rate : ℤ} {rec mr ms mc ss : ℝ}
    {c : Candidate}
    (h : c ∈ scan_candidates audio sample_rate rec mr ms mc ss) :
    ∃ s ∈ scan_starts audio.length (window_samples audio rec sample_rate)
        (scan_step ss sample_rate),
      c = candidate_of audio sample_rate (window_samples audio rec sample_rate)
        mr ms mc s := by
  obtain ⟨s, hs, rfl⟩ := List.mem_map.1 h
  exact ⟨s, hs, rfl⟩

end Voicebox

namespace Voicebox

/-- Modelled from the spec: `window_len = clamp(round(recommended_target_seconds ×
sample_rate), 1, len(samples))`, with `round` rounding to the nearest integer
(spec §4.2 step 1). -/
noncomputable def window_samples_spec (len : ℕ) (recommended_target_seconds : ℝ)
    (sample_rate : ℤ) : ℕ :=
  min (max 1 (round (recommended_target_seconds * sample_rate))).toNat len

/-- **C8 counterexample.** The claim says the window length is the rounding of
`recommended_target_seconds × sample_rate` to the nearest integer (clamped).  At
`recommended_target_seconds = 2.7`, `sample_rate = 1` and a 10-sample buffer the
code computes `int(2.7) = 2` while the claimed rounding gives 3. -/
theorem window_samples_truncates_counterexample :
    window_samples (List.replicate 10 (0:ℝ)) (27/10) 1 = 2 ∧
    window_samples_spec 10 (27/10) 1 = 3 := by
  constructor
  · have hfl : ⌊(27 : ℝ)/10⌋ = 2 := by norm_num
    norm_num [window_samples, pyint, hfl]
    decide
  · have hrd : round ((27 : ℝ)/10) = 3 := by
      rw [round_eq]
      norm_num
    norm_num [window_samples_spec, hrd]
    decide

/-- **C8 (amended).** The window length is computed by *truncation* of
`recommended_target_seconds × sample_rate` toward zero (Python `int`), clamped
below by 1 and above by the buffer length — and every buffer a successful
selection returns has exactly that length. -/
theorem select_returns_window_sized_segment (audio : List ℝ) (sample_rate : ℤ)
    (rec mr ms mc ss : ℝ) (pv : String) (seg : List ℝ) (meta : SelectionMeta)
    (h : select_best_reference_segment audio sample_rate rec mr ms mc ss pv =
      .ok (seg, meta)) :
    seg.length = window_samples audio rec sample_rate := by
  have hwin_le : window_samples audio rec sample_rate ≤ audio.length :=
    min_le_right _ _
  rcases select_ok_cases audio sample_rate rec mr ms mc ss pv seg meta h with
    ⟨hle, hseg, _⟩ | ⟨hlt, best, fb, hpick, hseg, _⟩
  · rw [hseg]
    exact le_antisymm hle hwin_le
  · obtain ⟨s, hs, hbest⟩ := scan_candidates_shape (pick_best_mem hpick)
    have hstart : best.start = s := by rw [hbest]; rfl
    have hstop : best.stop = s + window_samples audio rec sample_rate := by
      rw [hbest]; rfl
    have hsle : s ≤ audio.length - window_samples audio rec sample_rate :=
      scan_starts_le _ _ _ hs
    rw [hseg, hstart, hstop]
    exact segment_length _ _ _ (by omega)

/-- Witness for C8 (amended): a 3-sample buffer at 1 Hz with a 2.7-second target
scans (window 2 < length 3) and returns a 2-sample segment. -/
theorem select_returns_window_sized_segment_witness :
    ∃ seg meta, select_best_reference_segment
        [(1:ℝ)/2, 1/2, 1/2] 1 (27/10) (1/100) (45/100) (1/50) 1 "v1" = .ok (seg, meta) ∧
      seg.length = window_samples [(1:ℝ)/2, 1/2, 1/2] (27/10) 1 := by
  obtain ⟨p, hp⟩ : ∃ p, select_best_reference_segment
      [(1:ℝ)/2, 1/2, 1/2] 1 (27/10) (1/100) (45/100) (1/50) 1 "v1" = .ok p := by
    have hfl : ⌊(27 : ℝ)/10⌋ = 2 := by norm_num
    have hw : window_samples [(1:ℝ)/2, 1/2, 1/2] (27/10) 1 = 2 := by
      norm_num [window_samples, pyint, hfl]
      decide
    unfold select_best_reference_segment
    rw [if_neg (by norm_num), if_neg (by norm_num), if_neg (by rw [hw]; norm_num)]
    rcases hpick : pick_best (scan_candidates [(1:ℝ)/2, 1/2, 1/2] 1 (27/10) (1/100)
        (45/100) (1/50) 1) with _ | ⟨best, fb⟩
    · exfalso
      have hne : scan_candidates [(1:ℝ)/2, 1/2, 1/2] 1 (27/10) (1/100) (45/100) (1/50) 1
          ≠ [] := by
        unfold scan_candidates
        simp only [ne_eq, List.map_eq_nil_iff]
        exact scan_starts_ne_nil _ _ _
      unfold pick_best at hpick
      rcases hf : (scan_candidates [(1:ℝ)/2, 1/2, 1/2] 1 (27/10) (1/100) (45/100)
          (1/50) 1).filter (fun c => c.eligible) with _ | ⟨e, es⟩
      · rcases hc : scan_candidates [(1:ℝ)/2, 1/2, 1/2] 1 (27/10) (1/100) (45/100)
            (1/50) 1 with _ | ⟨c, cs⟩
        · exact hne hc
        · rw [hf, hc] at hpick
          simp at hpick
      · rw [hf] at hpick
        simp at hpick
    · exact ⟨_, rfl⟩
  obtain ⟨seg, meta⟩ := p
  exact ⟨seg, meta, hp,
    select_returns_window_sized_segment _ 1 (27/10) (1/100) (45/100) (1/50) 1 "v1"
      seg meta hp⟩

/-- **C10.** `compute_quality_metrics` reports `duration_seconds` as the raw
sample count of a non-empty buffer (no division by a sample rate), and
`select_best_reference_segment` overwrites the field with
`len(segment)/sample_rate` on every buffer it returns, so only standalone
callers observe the sample count. -/
theorem duration_seconds_is_raw_sample_count :
    (∀ (audio : List ℝ) (st ct : ℝ), audio ≠ [] →
      (compute_quality_metrics audio st ct).duration_seconds = audio.length) ∧
    (∀ (audio : List ℝ) (sample_rate : ℤ) (rec mr ms mc ss : ℝ) (pv : String)
      (seg : List ℝ) (meta : SelectionMeta),
      select_best_reference_segment audio sample_rate rec mr ms mc ss pv =
        .ok (seg, meta) →
      meta.metrics.duration_seconds = (seg.length : ℝ) / (sample_rate : ℝ)) := by
  constructor
  · intro audio st ct h
    have hlen : ¬ audio.length = 0 := by simpa [List.length_eq_zero] using h
    unfold compute_quality_metrics
    rw [if_neg hlen]
  · intro audio sample_rate rec mr ms mc ss pv seg meta h
    rcases select_ok_cases audio sample_rate rec mr ms mc ss pv seg meta h with
      ⟨hle, hseg, hmeta⟩ | ⟨hlt, best, fb, hpick, hseg, hmeta⟩
    · rw [hmeta, hseg]
    · obtain ⟨s, hs, hbest⟩ := scan_candidates_shape (pick_best_mem hpick)
      have hstart : best.start = s := by rw [hbest]; rfl
      have hstop : best.stop = s + window_samples audio rec sample_rate := by
        rw [hbest]; rfl
      have hm : best.metrics.duration_seconds =
          ((segment audio s (s + window_samples audio rec sample_rate)).length : ℝ) /
            (sample_rate : ℝ) := by
        rw [hbest]; rfl
      rw [hmeta]
      simp only [hm, hseg, hstart, hstop]

/-- Witness for C10: a singleton buffer reports `duration_seconds = 1` from the
standalone metric call, and a successful selection reports the overwritten
`len/sample_rate`. -/
theorem duration_seconds_is_raw_sample_count_witness :
    (compute_quality_metrics [(1:ℝ)/2] 0.01 0.99).duration_seconds = 1 ∧
    ∃ seg meta, select_best_reference_segment [(1:ℝ)/2] 1 1 (1/100) (45/100) (1/50)
        (1/2) "v1" = .ok (seg, meta) ∧
      meta.metrics.duration_seconds = (seg.length : ℝ) / ((1:ℤ) : ℝ) := by
  constructor
  · have := duration_seconds_is_raw_sample_count.1 [(1:ℝ)/2] 0.01 0.99 (by simp)
    rw [this]
    norm_num
  · obtain ⟨p, hp⟩ : ∃ p, select_best_reference_segment [(1:ℝ)/2] 1 1 (1/100) (45/100)
        (1/50) (1/2) "v1" = .ok p := by
      have hw : window_samples [(1:ℝ)/2] 1 1 = 1 := by
        norm_num [window_samples, pyint]
      unfold select_best_reference_segment
      rw [if_neg (by norm_num), if_neg (by norm_num), if_pos (by rw [hw]; norm_num)]
      exact ⟨_, rfl⟩
    obtain ⟨seg, meta⟩ := p
    exact ⟨seg, meta, hp,
      duration_seconds_is_raw_sample_count.2 _ 1 1 (1/100) (45/100) (1/50) (1/2) "v1"
        seg meta hp⟩

end Voicebox

namespace Voicebox

/-! ### Metric range facts and C9 -/

section
open Classical

/-- The silence fraction of any computed metrics lies in `[0, 1]`. -/
lemma compute_silence_mem (audio : List ℝ) (st ct : ℝ) :
    0 ≤ (compute_quality_metrics audio st ct).silence_fraction ∧
      (compute_quality_metrics audio st ct).silence_fraction ≤ 1 := by
  unfold compute_quality_metrics
  split
  · norm_num
  · rename_i hne
    have hpos : (0:ℝ) < audio.length := by
      have : 0 < audio.length := Nat.pos_of_ne_zero hne
      exact_mod_cast this
    constructor
    · exact div_nonneg (by positivity) hpos.le
    · rw [div_le_one hpos]
      exact_mod_cast List.countP_le_length _

/-- The clipping fraction of any computed metrics lies in `[0, 1]`. -/
lemma compute_clipping_mem (audio : List ℝ) (st ct : ℝ) :
    0 ≤ (compute_quality_metrics audio st ct).clipping_fraction ∧
      (compute_quality_metrics audio st ct).clipping_fraction ≤ 1 := by
  unfold compute_quality_metrics
  split
  · norm_num
  · rename_i hne
    have hpos : (0:ℝ) < audio.length := by
      have : 0 < audio.length := Nat.pos_of_ne_zero hne
      exact_mod_cast this
    constructor
    · exact div_nonneg (by positivity) hpos.le
    · rw [div_le_one hpos]
      exact_mod_cast List.countP_le_length _

/-- The RMS of any computed metrics is nonnegative. -/
lemma compute_rms_nonneg (audio : List ℝ) (st ct : ℝ) :
    0 ≤ (compute_quality_metrics audio st ct).rms := by
  unfold compute_quality_metrics
  split
  · norm_num
  · exact Real.sqrt_nonneg _

/-- Evaluation of the metrics of a one-sample buffer. -/
lemma compute_singleton (x st ct : ℝ) :
    compute_quality_metrics [x] st ct =
      { duration_seconds := 1, rms := |x|,
        silence_fraction := if |x| ≤ st then 1 else 0,
        clipping_fraction := if ct ≤ |x| then 1 else 0,
        peak_abs := |x| } := by
  unfold compute_quality_metrics
  rw [if_neg (by norm_num)]
  simp only [List.length_cons, List.length_nil, List.map_cons, List.map_nil,
    List.sum_cons, List.sum_nil, List.countP_cons, List.countP_nil,
    List.foldr_cons, List.foldr_nil, QualityMetrics.mk.injEq]
  refine ⟨by norm_num, ?_, ?_, ?_, max_eq_left (abs_nonneg x)⟩
  · norm_num [Real.sqrt_sq_eq_abs]
  · by_cases h : |x| ≤ st <;> simp [h]
  · by_cases h : ct ≤ |x| <;> simp [h]

/-- Core inequality behind C9 as amended: with the normalization floor inactive
(`2·min_rms ≥ 1e-8`), an eligible window's penalized score strictly exceeds any
ineligible window's. -/
lemma score_lt_of_eligible (me mi : QualityMetrics) (mr ms mc : ℝ)
    (hse0 : 0 ≤ me.silence_fraction) (hse1 : me.silence_fraction ≤ 1)
    (hce0 : 0 ≤ me.clipping_fraction) (hce1 : me.clipping_fraction ≤ 1)
    (hsi0 : 0 ≤ mi.silence_fraction) (hsi1 : mi.silence_fraction ≤ 1)
    (hci0 : 0 ≤ mi.clipping_fraction) (hci1 : mi.clipping_fraction ≤ 1)
    (hri0 : 0 ≤ mi.rms)
    (hmr : 1/200000000 ≤ mr)
    (he : is_eligible me mr ms mc = true)
    (hi : is_eligible mi mr ms mc = false) :
    candidate_score mi mr false < candidate_score me mr true := by
  have hmr0 : 0 < mr := by linarith
  unfold is_eligible at he hi
  rw [Bool.and_eq_true, Bool.and_eq_true] at he
  obtain ⟨⟨he1, he2⟩, he3⟩ := he
  rw [decide_eq_true_eq] at he1 he2 he3
  have hdenom : rms_norm_denom mr = mr * 2 := by
    unfold rms_norm_denom
    exact max_eq_left (by linarith)
  have hne : (1:ℝ)/2 ≤ min (me.rms / rms_norm_denom mr) 1.5 := by
    refine le_min ?_ (by norm_num)
    rw [hdenom, le_div_iff (by linarith)]
    linarith
  have hne' : min (me.rms / rms_norm_denom mr) 1.5 ≤ 1.5 := min_le_right _ _
  have hni : min (mi.rms / rms_norm_denom mr) 1.5 ≤ 1.5 := min_le_right _ _
  have hi' : ¬ (mr ≤ mi.rms ∧ mi.silence_fraction ≤ ms ∧ mi.clipping_fraction ≤ mc) := by
    rintro ⟨h1, h2, h3⟩
    rw [decide_eq_true h1, decide_eq_true h2, decide_eq_true h3] at hi
    simp at hi
  have hcs_true : candidate_score me mr true =
      (1 - me.silence_fraction) * 0.45 + min (me.rms / rms_norm_denom mr) 1.5 * 0.40 +
        (1 - me.clipping_fraction) * 0.15 := by
    simp [candidate_score]
  have hcs_false : candidate_score mi mr false =
      (1 - mi.silence_fraction) * 0.45 + min (mi.rms / rms_norm_denom mr) 1.5 * 0.40 +
        (1 - mi.clipping_fraction) * 0.15 - 1 := by
    simp [candidate_score]
  rw [hcs_true, hcs_false]
  by_cases h1 : mr ≤ mi.rms
  · by_cases h2 : mi.silence_fraction ≤ ms
    · have h3 : mc < mi.clipping_fraction := by
        by_contra h3
        exact hi' ⟨h1, h2, le_of_not_lt h3⟩
      have hcei : me.clipping_fraction < mi.clipping_fraction := lt_of_le_of_lt he3 h3
      linarith
    · have hsei : me.silence_fraction < mi.silence_fraction :=
        lt_of_le_of_lt he2 (lt_of_not_le h2)
      linarith
  · have hlt : mi.rms < mr := lt_of_not_le h1
    have hni' : min (mi.rms / rms_norm_denom mr) 1.5 < 1/2 := by
      refine lt_of_le_of_lt (min_le_left _ _) ?_
      rw [hdenom, div_lt_iff (by linarith)]
      linarith
    linarith

/-- **C9 (amended).** For two candidate windows scored in one scan with the same
thresholds, *provided* `2·min_rms ≥ 1e-8` (so the RMS-normalization denominator
is `2·min_rms` rather than the `1e-8` floor), an eligible window's penalized
score is strictly greater than an ineligible window's. -/
theorem eligible_candidate_outranks_ineligible (audio : List ℝ) (sample_rate : ℤ)
    (w : ℕ) (mr ms mc : ℝ) (s1 s2 : ℕ)
    (hmr : 1/200000000 ≤ mr)
    (he : (candidate_of audio sample_rate w mr ms mc s1).eligible = true)
    (hi : (candidate_of audio sample_rate w mr ms mc s2).eligible = false) :
    (candidate_of audio sample_rate w mr ms mc s2).score <
      (candidate_of audio sample_rate w mr ms mc s1).score := by
  have he' : is_eligible (window_metrics audio sample_rate w s1) mr ms mc = true := he
  have hi' : is_eligible (window_metrics audio sample_rate w s2) mr ms mc = false := hi
  have hs1 : (candidate_of audio sample_rate w mr ms mc s1).score =
      candidate_score (window_metrics audio sample_rate w s1) mr true := by
    show candidate_score (window_metrics audio sample_rate w s1) mr
      (is_eligible (window_metrics audio sample_rate w s1) mr ms mc) = _
    rw [he']
  have hs2 : (candidate_of audio sample_rate w mr ms mc s2).score =
      candidate_score (window_metrics audio sample_rate w s2) mr false := by
    show candidate_score (window_metrics audio sample_rate w s2) mr
      (is_eligible (window_metrics audio sample_rate w s2) mr ms mc) = _
    rw [hi']
  rw [hs1, hs2]
  exact score_lt_of_eligible _ _ mr ms mc
    (compute_silence_mem (segment audio s1 (s1 + w)) _ _).1
    (compute_silence_mem (segment audio s1 (s1 + w)) _ _).2
    (compute_clipping_mem (segment audio s1 (s1 + w)) _ _).1
    (compute_clipping_mem (segment audio s1 (s1 + w)) _ _).2
    (compute_silence_mem (segment audio s2 (s2 + w)) _ _).1
    (compute_silence_mem (segment audio s2 (s2 + w)) _ _).2
    (compute_clipping_mem (segment audio s2 (s2 + w)) _ _).1
    (compute_clipping_mem (segment audio s2 (s2 + w)) _ _).2
    (compute_rms_nonneg (segment audio s2 (s2 + w)) _ _)
    hmr he' hi'

/-- Witness for C9 (amended): buffer `[0.1, 0.0]`, window 1; the window `[0.1]`
is eligible at `min_rms = 0.05`, the window `[0.0]` is not, and the eligible
window outranks it. -/
theorem eligible_candidate_outranks_ineligible_witness :
    ((1:ℝ)/200000000 ≤ 1/20) ∧
    (candidate_of [(1:ℝ)/10, 0] 1 1 (1/20) (45/100) (1/50) 0).eligible = true ∧
    (candidate_of [(1:ℝ)/10, 0] 1 1 (1/20) (45/100) (1/50) 1).eligible = false ∧
    (candidate_of [(1:ℝ)/10, 0] 1 1 (1/20) (45/100) (1/50) 1).score <
      (candidate_of [(1:ℝ)/10, 0] 1 1 (1/20) (45/100) (1/50) 0).score := by
  have hseg0 : segment [(1:ℝ)/10, 0] 0 (0 + 1) = [(1:ℝ)/10] := by
    simp [segment]
  have hseg1 : segment [(1:ℝ)/10, 0] 1 (1 + 1) = [(0:ℝ)] := by
    simp [segment]
  have hwm0 : window_metrics [(1:ℝ)/10, 0] 1 1 0 =
      ⟨1, 1/10, 0, 0, 1/10⟩ := by
    unfold window_metrics
    rw [hseg0, compute_singleton,
      abs_of_nonneg (by norm_num : (0:ℝ) ≤ 1/10),
      if_neg (by norm_num : ¬ ((1:ℝ)/10 ≤ 0.01)),
      if_neg (by norm_num : ¬ ((0.99:ℝ) ≤ 1/10))]
    norm_num [QualityMetrics.mk.injEq]
  have hwm1 : window_metrics [(1:ℝ)/10, 0] 1 1 1 =
      ⟨1, 0, 1, 0, 0⟩ := by
    unfold window_metrics
    rw [hseg1, compute_singleton, abs_zero,
      if_pos (by norm_num : (0:ℝ) ≤ 0.01),
      if_neg (by norm_num : ¬ ((0.99:ℝ) ≤ 0))]
    norm_num [QualityMetrics.mk.injEq]
  have heT : is_eligible (⟨1, 1/10, 0, 0, 1/10⟩ : QualityMetrics)
      (1/20) (45/100) (1/50) = true := by
    simp only [is_eligible]
    rw [decide_eq_true (by norm_num : (1:ℝ)/20 ≤ (⟨1, 1/10, 0, 0, 1/10⟩ :
        QualityMetrics).rms)]
    rw [decide_eq_true (by norm_num : (⟨1, 1/10, 0, 0, 1/10⟩ :
        QualityMetrics).silence_fraction ≤ 45/100)]
    rw [decide_eq_true (by norm_num : (⟨1, 1/10, 0, 0, 1/10⟩ :
        QualityMetrics).clipping_fraction ≤ 1/50)]
    rfl
  have hiF : is_eligible (⟨1, 0, 1, 0, 0⟩ : QualityMetrics)
      (1/20) (45/100) (1/50) = false := by
    simp only [is_eligible]
    rw [decide_eq_false (by norm_num : ¬ ((1:ℝ)/20 ≤ (⟨1, 0, 1, 0, 0⟩ :
        QualityMetrics).rms))]
    rfl
  have he : (candidate_of [(1:ℝ)/10, 0] 1 1 (1/20) (45/100) (1/50) 0).eligible = true := by
    show is_eligible (window_metrics [(1:ℝ)/10, 0] 1 1 0) (1/20) (45/100) (1/50) = true
    rw [hwm0]
    exact heT
  have hi : (candidate_of [(1:ℝ)/10, 0] 1 1 (1/20) (45/100) (1/50) 1).eligible = false := by
    show is_eligible (window_metrics [(1:ℝ)/10, 0] 1 1 1) (1/20) (45/100) (1/50) = false
    rw [hwm1]
    exact hiF
  exact ⟨by norm_num, he, hi,
    eligible_candidate_outranks_ineligible [(1:ℝ)/10, 0] 1 1 (1/20) (45/100) (1/50) 0 1
      (by norm_num) he hi⟩

/-- Count of a constant list under any Boolean predicate. -/
lemma countP_replicate {α : Type} (p : α → Bool) :
    ∀ (n : ℕ) (a : α), (List.replicate n a).countP p = if p a then n else 0
  | 0, a => by simp
  | n + 1, a => by
    rw [List.replicate_succ, List.countP_cons, countP_replicate p n a]
    by_cases h : p a
    · simp [h]
    · simp [h]

/-- `foldr max 0` over a constant nonnegative list. -/
lemma foldr_max_replicate :
    ∀ (n : ℕ), n ≠ 0 → ∀ (a : ℝ), 0 ≤ a → (List.replicate n a).foldr max 0 = a
  | 0, h, _, _ => absurd rfl h
  | 1, _, a, h0 => by simp [max_eq_left h0]
  | n + 2, _, a, h0 => by
    rw [List.replicate_succ, List.foldr_cons, foldr_max_replicate (n + 1) (by omega) a h0,
      max_self]

/-- Metrics of a constant buffer. -/
lemma compute_replicate (n : ℕ) (hn : n ≠ 0) (a st ct : ℝ) :
    compute_quality_metrics (List.replicate n a) st ct =
      { duration_seconds := n, rms := |a|,
        silence_fraction := if |a| ≤ st then 1 else 0,
        clipping_fraction := if ct ≤ |a| then 1 else 0,
        peak_abs := |a| } := by
  have hnR : ((n:ℝ)) ≠ 0 := Nat.cast_ne_zero.2 hn
  unfold compute_quality_metrics
  rw [if_neg (by simpa using hn)]
  simp only [List.length_replicate, List.map_replicate, QualityMetrics.mk.injEq]
  refine ⟨trivial, ?_, ?_, ?_, foldr_max_replicate n hn |a| (abs_nonneg a)⟩
  · rw [List.sum_replicate, nsmul_eq_mul, mul_comm, mul_div_assoc, div_self hnR, mul_one,
      Real.sqrt_sq_eq_abs]
  · rw [countP_replicate]
    by_cases h : |a| ≤ st
    · rw [if_pos (decide_eq_true h), if_pos h, div_self hnR]
    · rw [if_neg (by simp [h]), if_neg h]
      simp
  · rw [countP_replicate]
    by_cases h : ct ≤ |a|
    · rw [if_pos (decide_eq_true h), if_pos h, div_self hnR]
    · rw [if_neg (by simp [h]), if_neg h]
      simp

/-- The tiny eligible sample value of the C9 counterexample: `1e-12`. -/
noncomputable def ceA : ℝ := 1/10^12

/-- The C9 counterexample buffer: four samples of `1e-12` followed by
`[1, 4/11, 4/11, 4/11]`. -/
noncomputable def ceBuffer : List ℝ := [ceA, ceA, ceA, ceA, 1, 4/11, 4/11, 4/11]

/-- **C9 counterexample.** With `min_rms = 1e-12`, `max_silence_ratio = 1`,
`max_clipping_ratio = 0`, the scan of `ceBuffer` at 4 Hz with a 1-second window
and 1-second step scores exactly the windows starting at 0 and 4; the first is
eligible, the second is not, yet the eligible window's penalized score
(`0.15004`) is strictly *below* the ineligible one's (`0.1625`), refuting the
claim that eligibility decides the score order.  (The normalization denominator
floors at `1e-8`, so a tiny `min_rms` starves the eligible window's RMS term.) -/
theorem eligible_score_not_always_greater :
    window_samples ceBuffer 1 4 = 4 ∧
    scan_step 1 4 = 4 ∧
    scan_starts 8 4 4 = [0, 4] ∧
    (candidate_of ceBuffer 4 4 ceA 1 0 0).eligible = true ∧
    (candidate_of ceBuffer 4 4 ceA 1 0 4).eligible = false ∧
    (candidate_of ceBuffer 4 4 ceA 1 0 0).score <
      (candidate_of ceBuffer 4 4 ceA 1 0 4).score := by
  have hceA0 : (0:ℝ) ≤ ceA := by norm_num [ceA]
  have hseg0 : segment ceBuffer 0 (0 + 4) = List.replicate 4 ceA := by
    simp [segment, ceBuffer, List.replicate]
  have hseg4 : segment ceBuffer 4 (4 + 4) = [(1:ℝ), 4/11, 4/11, 4/11] := by
    simp [segment, ceBuffer]
  have hmA : compute_quality_metrics (List.replicate 4 ceA) 0.01 0.99 =
      ⟨4, ceA, 1, 0, ceA⟩ := by
    rw [compute_replicate 4 (by norm_num) ceA 0.01 0.99,
      abs_of_nonneg hceA0,
      if_pos (by norm_num [ceA] : ceA ≤ 0.01),
      if_neg (by norm_num [ceA] : ¬ ((0.99:ℝ) ≤ ceA))]
    norm_num [QualityMetrics.mk.injEq]
  have hmB : compute_quality_metrics [(1:ℝ), 4/11, 4/11, 4/11] 0.01 0.99 =
      ⟨4, 13/22, 0, 1/4, 1⟩ := by
    unfold compute_quality_metrics
    rw [if_neg (by norm_num)]
    simp only [QualityMetrics.mk.injEq]
    refine ⟨by simp, ?_, ?_, ?_, ?_⟩
    · have h1 : (([(1:ℝ), 4/11, 4/11, 4/11]).map (fun x => x ^ 2)).sum /
          (([(1:ℝ), 4/11, 4/11, 4/11]).length : ℝ) = ((13:ℝ)/22)^2 := by
        simp
        norm_num
      rw [h1, Real.sqrt_sq (by norm_num)]
    · have hc : ([(1:ℝ), 4/11, 4/11, 4/11]).countP
          (fun x => decide (|x| ≤ 0.01)) = 0 := by
        rw [List.countP_cons, List.countP_cons, List.countP_cons, List.countP_cons,
          List.countP_nil]
        rw [decide_eq_false (by rw [abs_one]; norm_num : ¬ (|(1:ℝ)| ≤ 0.01))]
        rw [decide_eq_false (by
          rw [abs_of_nonneg (by norm_num : (0:ℝ) ≤ 4/11)]
          norm_num : ¬ (|(4:ℝ)/11| ≤ 0.01))]
        simp
      rw [hc]
      simp
    · have hc : ([(1:ℝ), 4/11, 4/11, 4/11]).countP
          (fun x => decide ((0.99:ℝ) ≤ |x|)) = 1 := by
        rw [List.countP_cons, List.countP_cons, List.countP_cons, List.countP_cons,
          List.countP_nil]
        rw [decide_eq_true (by rw [abs_one]; norm_num : (0.99:ℝ) ≤ |(1:ℝ)|)]
        rw [decide_eq_false (by
          rw [abs_of_nonneg (by norm_num : (0:ℝ) ≤ 4/11)]
          norm_num : ¬ ((0.99:ℝ) ≤ |(4:ℝ)/11|))]
        simp
      rw [hc]
      norm_num
    · simp only [List.map_cons, List.map_nil, List.foldr_cons, List.foldr_nil]
      rw [abs_one, abs_of_nonneg (by norm_num : (0:ℝ) ≤ 4/11)]
      rw [show max (4/11 : ℝ) 0 = 4/11 from max_eq_left (by norm_num)]
      rw [show max (4/11 : ℝ) (4/11) = 4/11 from max_self _]
      rw [show max (4/11 : ℝ) (4/11) = 4/11 from max_self _]
      exact max_eq_left (by norm_num)
  have hwmA : window_metrics ceBuffer 4 4 0 = ⟨1, ceA, 1, 0, ceA⟩ := by
    unfold window_metrics
    rw [hseg0, hmA]
    norm_num [QualityMetrics.mk.injEq]
  have hwmB : window_metrics ceBuffer 4 4 4 = ⟨1, 13/22, 0, 1/4, 1⟩ := by
    unfold window_metrics
    rw [hseg4, hmB]
    norm_num [QualityMetrics.mk.injEq]
  have heA : is_eligible (⟨1, ceA, 1, 0, ceA⟩ : QualityMetrics) ceA 1 0 = true := by
    simp only [is_eligible]
    rw [decide_eq_true (le_refl ceA : ceA ≤ (⟨1, ceA, 1, 0, ceA⟩ : QualityMetrics).rms)]
    rw [decide_eq_true (by norm_num :
      (⟨1, ceA, 1, 0, ceA⟩ : QualityMetrics).silence_fraction ≤ 1)]
    rw [decide_eq_true (by norm_num :
      (⟨1, ceA, 1, 0, ceA⟩ : QualityMetrics).clipping_fraction ≤ 0)]
    rfl
  have heB : is_eligible (⟨1, 13/22, 0, 1/4, 1⟩ : QualityMetrics) ceA 1 0 = false := by
    simp only [is_eligible]
    rw [decide_eq_false (by norm_num :
      ¬ ((⟨1, 13/22, 0, 1/4, 1⟩ : QualityMetrics).clipping_fraction ≤ 0))]
    simp
  have he : (candidate_of ceBuffer 4 4 ceA 1 0 0).eligible = true := by
    show is_eligible (window_metrics ceBuffer 4 4 0) ceA 1 0 = true
    rw [hwmA]
    exact heA
  have hi : (candidate_of ceBuffer 4 4 ceA 1 0 4).eligible = false := by
    show is_eligible (window_metrics ceBuffer 4 4 4) ceA 1 0 = false
    rw [hwmB]
    exact heB
  have hden : rms_norm_denom ceA = 1/100000000 := by
    unfold rms_norm_denom
    exact max_eq_right (by norm_num [ceA])
  have hsc0 : (candidate_of ceBuffer 4 4 ceA 1 0 0).score =
      candidate_score (⟨1, ceA, 1, 0, ceA⟩ : QualityMetrics) ceA true := by
    show candidate_score (window_metrics ceBuffer 4 4 0) ceA
      (is_eligible (window_metrics ceBuffer 4 4 0) ceA 1 0) = _
    rw [hwmA, heA]
  have hsc4 : (candidate_of ceBuffer 4 4 ceA 1 0 4).score =
      candidate_score (⟨1, 13/22, 0, 1/4, 1⟩ : QualityMetrics) ceA false := by
    show candidate_score (window_metrics ceBuffer 4 4 4) ceA
      (is_eligible (window_metrics ceBuffer 4 4 4) ceA 1 0) = _
    rw [hwmB, heB]
  refine ⟨?_, ?_, by decide, he, hi, ?_⟩
  · have hfl : ⌊(1:ℝ) * ((4:ℤ) : ℝ)⌋ = 4 := by norm_num
    norm_num [window_samples, pyint, hfl, ceBuffer]
    decide
  · have hfl : ⌊(1:ℝ) * ((4:ℤ) : ℝ)⌋ = 4 := by norm_num
    norm_num [scan_step, pyint, hfl]
    decide
  · rw [hsc0, hsc4]
    simp only [candidate_score, hden]
    have hm0 : min ((⟨1, ceA, 1, 0, ceA⟩ : QualityMetrics).rms / ((1:ℝ)/100000000)) 1.5
        = 1/10000 := by
      rw [min_eq_left (by norm_num [ceA])]
      norm_num [ceA]
    have hm4 : min ((⟨1, 13/22, 0, 1/4, 1⟩ : QualityMetrics).rms / ((1:ℝ)/100000000)) 1.5
        = 1.5 := min_eq_right (by norm_num)
    rw [hm0, hm4]
    norm_num

end

end Voicebox

namespace Voicebox

/-! ### Scenario B of the spec: the all-zero 4-second buffer at 1000 Hz -/

/-- The all-zero 4-second buffer at 1000 Hz. -/
noncomputable def zeroBuffer : List ℝ := List.replicate 4000 0

lemma zeroBuffer_window : window_samples zeroBuffer 2 1000 = 2000 := by
  norm_num [window_samples, pyint, zeroBuffer]
  decide

lemma zeroBuffer_step : scan_step 2 1000 = 2000 := by
  norm_num [scan_step, pyint]
  decide

lemma zeroBuffer_starts : scan_starts 4000 2000 2000 = [0, 2000] := by decide

lemma zero_metrics : compute_quality_metrics (List.replicate 2000 (0:ℝ)) 0.01 0.99 =
    ⟨2000, 0, 1, 0, 0⟩ := by
  rw [compute_replicate 2000 (by norm_num) 0 0.01 0.99, abs_zero,
    if_pos (by norm_num : (0:ℝ) ≤ 0.01),
    if_neg (by norm_num : ¬ ((0.99:ℝ) ≤ 0))]
  norm_num [QualityMetrics.mk.injEq]

lemma zeroBuffer_wm0 : window_metrics zeroBuffer 1000 2000 0 = ⟨2, 0, 1, 0, 0⟩ := by
  have hseg : segment zeroBuffer 0 (0 + 2000) = List.replicate 2000 (0:ℝ) := by
    unfold segment zeroBuffer
    rw [List.drop_replicate, List.take_replicate]
    norm_num
  unfold window_metrics
  rw [hseg, zero_metrics]
  norm_num [QualityMetrics.mk.injEq, List.length_replicate]

lemma zeroBuffer_wm1 : window_metrics zeroBuffer 1000 2000 2000 = ⟨2, 0, 1, 0, 0⟩ := by
  have hseg : segment zeroBuffer 2000 (2000 + 2000) = List.replicate 2000 (0:ℝ) := by
    unfold segment zeroBuffer
    rw [List.drop_replicate, List.take_replicate]
    norm_num
  unfold window_metrics
  rw [hseg, zero_metrics]
  norm_num [QualityMetrics.mk.injEq, List.length_replicate]

lemma zero_metrics_ineligible :
    is_eligible (⟨2, 0, 1, 0, 0⟩ : QualityMetrics) (1/20) (1/100) 0 = false := by
  simp only [is_eligible]
  rw [decide_eq_false (by norm_num :
    ¬ ((1:ℝ)/20 ≤ (⟨2, 0, 1, 0, 0⟩ : QualityMetrics).rms))]
  rfl

lemma zeroBuffer_cands : scan_candidates zeroBuffer 1000 2 (1/20) (1/100) 0 2 =
    [candidate_of zeroBuffer 1000 2000 (1/20) (1/100) 0 0,
     candidate_of zeroBuffer 1000 2000 (1/20) (1/100) 0 2000] := by
  unfold scan_candidates
  dsimp only
  rw [zeroBuffer_window, zeroBuffer_step,
    show zeroBuffer.length = 4000 from by rw [zeroBuffer, List.length_replicate],
    zeroBuffer_starts]
  rfl

lemma zeroBuffer_elig0 :
    (candidate_of zeroBuffer 1000 2000 (1/20) (1/100) 0 0).eligible = false := by
  show is_eligible (window_metrics zeroBuffer 1000 2000 0) (1/20) (1/100) 0 = false
  rw [zeroBuffer_wm0]
  exact zero_metrics_ineligible

lemma zeroBuffer_elig1 :
    (candidate_of zeroBuffer 1000 2000 (1/20) (1/100) 0 2000).eligible = false := by
  show is_eligible (window_metrics zeroBuffer 1000 2000 2000) (1/20) (1/100) 0 = false
  rw [zeroBuffer_wm1]
  exact zero_metrics_ineligible

lemma zeroBuffer_all_ineligible :
    ∀ c ∈ scan_candidates zeroBuffer 1000 2 (1/20) (1/100) 0 2, c.eligible = false := by
  intro c hc
  rw [zeroBuffer_cands] at hc
  rcases List.mem_cons.1 hc with h | h
  · rw [h]
    exact zeroBuffer_elig0
  · rw [List.mem_singleton.1 h]
    exact zeroBuffer_elig1

lemma zeroBuffer_pick : pick_best (scan_candidates zeroBuffer 1000 2 (1/20) (1/100) 0 2) =
    some (candidate_of zeroBuffer 1000 2000 (1/20) (1/100) 0 0,
      some "no_segment_met_quality_thresholds") := by
  have hmet0 : (candidate_of zeroBuffer 1000 2000 (1/20) (1/100) 0 0).metrics =
      ⟨2, 0, 1, 0, 0⟩ := by
    show window_metrics zeroBuffer 1000 2000 0 = _
    exact zeroBuffer_wm0
  have hmet1 : (candidate_of zeroBuffer 1000 2000 (1/20) (1/100) 0 2000).metrics =
      ⟨2, 0, 1, 0, 0⟩ := by
    show window_metrics zeroBuffer 1000 2000 2000 = _
    exact zeroBuffer_wm1
  have hkeys : fallback_key (candidate_of zeroBuffer 1000 2000 (1/20) (1/100) 0 2000) =
      fallback_key (candidate_of zeroBuffer 1000 2000 (1/20) (1/100) 0 0) := by
    simp only [fallback_key, hmet0, hmet1]
  have hfilter : (scan_candidates zeroBuffer 1000 2 (1/20) (1/100) 0 2).filter
      (fun c => c.eligible) = [] := by
    rw [zeroBuffer_cands]
    simp only [List.filter_cons, zeroBuffer_elig0, zeroBuffer_elig1, Bool.false_eq_true,
      if_false, List.filter_nil]
  have hbest : max_by fallback_key (candidate_of zeroBuffer 1000 2000 (1/20) (1/100) 0 0)
      [candidate_of zeroBuffer 1000 2000 (1/20) (1/100) 0 2000] =
      candidate_of zeroBuffer 1000 2000 (1/20) (1/100) 0 0 := by
    unfold max_by
    rw [List.foldl_cons, List.foldl_nil, if_neg]
    rw [hkeys]
    exact keyGt3_irrefl _
  unfold pick_best
  rw [hfilter, zeroBuffer_cands]
  show some (max_by fallback_key (candidate_of zeroBuffer 1000 2000 (1/20) (1/100) 0 0)
      [candidate_of zeroBuffer 1000 2000 (1/20) (1/100) 0 2000],
    some "no_segment_met_quality_thresholds") = _
  rw [hbest]

end Voicebox

namespace Voicebox

/-- **C3.** In the scan path, when no candidate window is eligible, selection
picks the maximum over *all* candidates by the ordered key (silence ascending,
rms descending, clipping ascending) — the penalized score is not consulted —
and sets `fallback_reason = "no_segment_met_quality_thresholds"`; in particular
Scenario B (all-zero 4 s buffer at 1000 Hz, 2 s target, 2 s step, strict
thresholds) selects the window `[0 ms, 2000 ms)` with that fallback reason. -/
theorem fallback_maximizes_quality_key :
    (∀ (audio : List ℝ) (sample_rate : ℤ) (rec mr ms mc ss : ℝ) (pv : String),
      audio ≠ [] → 0 < sample_rate →
      window_samples audio rec sample_rate < audio.length →
      (∀ c ∈ scan_candidates audio sample_rate rec mr ms mc ss, c.eligible = false) →
      ∃ best, best ∈ scan_candidates audio sample_rate rec mr ms mc ss ∧
        (∀ c ∈ scan_candidates audio sample_rate rec mr ms mc ss,
          ¬ keyGt3 (fallback_key c) (fallback_key best)) ∧
        ∃ meta, select_best_reference_segment audio sample_rate rec mr ms mc ss pv =
            .ok (segment audio best.start best.stop, meta) ∧
          meta.fallback_reason = some "no_segment_met_quality_thresholds" ∧
          meta.selected_start_ms = pyint ((best.start : ℝ) / (sample_rate : ℝ) * 1000) ∧
          meta.selected_end_ms = pyint ((best.stop : ℝ) / (sample_rate : ℝ) * 1000)) ∧
    (∃ meta, select_best_reference_segment zeroBuffer 1000 2 (1/20) (1/100) 0 2 "v1" =
        .ok (List.replicate 2000 (0:ℝ), meta) ∧
      meta.selected_start_ms = 0 ∧ meta.selected_end_ms = 2000 ∧
      meta.fallback_reason = some "no_segment_met_quality_thresholds") := by
  constructor
  · intro audio sample_rate rec mr ms mc ss pv h1 h2 h3 h4
    have hlen : ¬ audio.length = 0 := by simpa [List.length_eq_zero] using h1
    have hcne : scan_candidates audio sample_rate rec mr ms mc ss ≠ [] := by
      unfold scan_candidates
      dsimp only
      simp only [ne_eq, List.map_eq_nil_iff]
      exact scan_starts_ne_nil _ _ _
    obtain ⟨c, cs, hc⟩ := List.exists_cons_of_ne_nil hcne
    have hfilter : (scan_candidates audio sample_rate rec mr ms mc ss).filter
        (fun c => c.eligible) = [] := by
      rw [List.filter_eq_nil_iff]
      intro a ha
      simp [h4 a ha]
    have hpick : pick_best (scan_candidates audio sample_rate rec mr ms mc ss) =
        some (max_by fallback_key c cs, some "no_segment_met_quality_thresholds") := by
      unfold pick_best
      rw [hfilter, hc]
    refine ⟨max_by fallback_key c cs, ?_, ?_, ?_⟩
    · rw [hc]
      exact (max_by_spec fallback_key cs c).1
    · intro cc hcc
      rw [hc] at hcc
      exact (max_by_spec fallback_key cs c).2 cc hcc
    · unfold select_best_reference_segment
      rw [if_neg hlen, if_neg (not_le.2 h2), if_neg (not_le.2 h3), hpick]
      exact ⟨_, rfl, rfl, rfl, rfl⟩
  · have hstart : (candidate_of zeroBuffer 1000 2000 (1/20) (1/100) 0 0).start = 0 := rfl
    have hstop : (candidate_of zeroBuffer 1000 2000 (1/20) (1/100) 0 0).stop =
        0 + 2000 := rfl
    have hmet : (candidate_of zeroBuffer 1000 2000 (1/20) (1/100) 0 0).metrics =
        ⟨2, 0, 1, 0, 0⟩ := by
      show window_metrics zeroBuffer 1000 2000 0 = _
      exact zeroBuffer_wm0
    have hseg : segment zeroBuffer 0 (0 + 2000) = List.replicate 2000 (0:ℝ) := by
      unfold segment zeroBuffer
      rw [List.drop_replicate, List.take_replicate]
      norm_num
    have hsel : select_best_reference_segment zeroBuffer 1000 2 (1/20) (1/100) 0 2 "v1" =
        .ok (List.replicate 2000 (0:ℝ),
          { selected_start_ms := 0
            selected_end_ms := 2000
            source_duration_ms := pyint ((zeroBuffer.length : ℝ) / ((1000:ℤ) : ℝ) * 1000)
            metrics := ⟨2, 0, 1, 0, 0⟩
            fallback_reason := some "no_segment_met_quality_thresholds"
            policy_version := "v1" }) := by
      unfold select_best_reference_segment
      rw [if_neg (by rw [zeroBuffer, List.length_replicate]; norm_num),
        if_neg (by norm_num),
        if_neg (by
          rw [zeroBuffer_window, zeroBuffer, List.length_replicate]
          norm_num),
        zeroBuffer_pick]
      dsimp only
      rw [hstart, hstop, hmet, hseg]
      simp only [Except.ok.injEq, Prod.mk.injEq, SelectionMeta.mk.injEq]
      refine ⟨trivial, ?_, ?_, trivial, trivial, trivial, trivial⟩
      · norm_num [pyint]
      · norm_num [pyint]
    exact ⟨_, hsel, rfl, rfl, rfl⟩

/-- Witness for C3: the universal clause applied to Scenario B's buffer, with
all four hypotheses discharged by evaluation. -/
theorem fallback_maximizes_quality_key_witness :
    ∃ best, best ∈ scan_candidates zeroBuffer 1000 2 (1/20) (1/100) 0 2 ∧
      (∀ c ∈ scan_candidates zeroBuffer 1000 2 (1/20) (1/100) 0 2,
        ¬ keyGt3 (fallback_key c) (fallback_key best)) ∧
      ∃ meta, select_best_reference_segment zeroBuffer 1000 2 (1/20) (1/100) 0 2 "v1" =
          .ok (segment zeroBuffer best.start best.stop, meta) ∧
        meta.fallback_reason = some "no_segment_met_quality_thresholds" ∧
        meta.selected_start_ms = pyint ((best.start : ℝ) / ((1000:ℤ) : ℝ) * 1000) ∧
        meta.selected_end_ms = pyint ((best.stop : ℝ) / ((1000:ℤ) : ℝ) * 1000) :=
  fallback_maximizes_quality_key.1 zeroBuffer 1000 2 (1/20) (1/100) 0 2 "v1"
    (by
      rw [zeroBuffer]
      intro h
      have hlen := congrArg List.length h
      simp only [List.length_replicate, List.length_nil] at hlen
      exact absurd hlen (by norm_num))
    (by norm_num)
    (by rw [zeroBuffer_window, zeroBuffer, List.length_replicate]; norm_num)
    zeroBuffer_all_ineligible

end Voicebox
